import Mathlib

/-!
Shallow embedding of the `BarcodeScanner` core of the codito-scannerito
library (the `@coditoscannerito/core` scanner class) together with the
public `BarcodeFormat` type from `packages/core/src/types.ts`.

Pure computations (option resolution, barcode normalization, the crop
rectangle of the target region, `createScanResult`) are translated
directly into Lean functions.  The stateful orchestrator is embedded as
explicit state passing: the instance fields of the class form a
`ScannerState` record, each public method is a function from a state
(plus the responses of the browser environment, supplied as explicit
outcome parameters) to a new state, a result and a list of observable
side effects (`Event`s).  The scan loop, whose steps the JavaScript
event loop interleaves only at `await` points, is embedded as a
function producing the sequential event trace that the source's
control flow forces: a decode submission is emitted, its resolution is
emitted, and only then does the step reschedule, exactly as in
`startScanLoop`.  Timer handles, the DOM video element and media
streams are abstracted to the information the scanner itself reads
from them (intrinsic dimensions, stream identity); numbers that are JS
doubles but are only ever produced by exact arithmetic in the claims
under study are modelled as rationals.
-/

namespace Codito

/-! ## Barcode formats

`BarcodeFormat` is the public union type of `packages/core/src/types.ts`
(lines 28-40); it has twelve members.  `ALL_FORMATS` is the default
format list of `scanner.ts`, a list of thirteen format names. -/

inductive BarcodeFormat
  | QR_CODE
  | CODE_128
  | CODE_39
  | EAN_13
  | EAN_8
  | UPC_A
  | UPC_E
  | DATA_MATRIX
  | PDF_417
  | AZTEC
  | CODABAR
  | ITF
deriving DecidableEq, Repr

def formatName : BarcodeFormat → String
  | .QR_CODE => "QR_CODE"
  | .CODE_128 => "CODE_128"
  | .CODE_39 => "CODE_39"
  | .EAN_13 => "EAN_13"
  | .EAN_8 => "EAN_8"
  | .UPC_A => "UPC_A"
  | .UPC_E => "UPC_E"
  | .DATA_MATRIX => "DATA_MATRIX"
  | .PDF_417 => "PDF_417"
  | .AZTEC => "AZTEC"
  | .CODABAR => "CODABAR"
  | .ITF => "ITF"

/-- All members of the `BarcodeFormat` union type, in declaration order. -/
def allBarcodeFormats : List BarcodeFormat :=
  [.QR_CODE, .CODE_128, .CODE_39, .EAN_13, .EAN_8, .UPC_A, .UPC_E,
   .DATA_MATRIX, .PDF_417, .AZTEC, .CODABAR, .ITF]

/-- The `ALL_FORMATS` constant of `scanner.ts` (the constructor's default
for the `formats` option), as the list of format-name strings it spells
out. -/
def ALL_FORMATS : List String :=
  ["QR_CODE", "CODE_128", "CODE_93", "CODE_39", "EAN_13", "EAN_8",
   "UPC_A", "UPC_E", "DATA_MATRIX", "PDF_417", "AZTEC", "CODABAR", "ITF"]

/-! ## Normalization

`normalizeBarcode` performs, in source order: one anchored replacement of
the regex matching a leading AIM identifier (a right bracket followed by
one or two ASCII alphanumerics, greedy), removal of every ASCII control
character (0x00-0x1F and 0x7F), and a JS `String.prototype.trim`. -/

/-- One character class of the regex: `[A-Za-z0-9]`. -/
def isRegexAlnum (c : Char) : Bool := c.isAlphanum

/-- The character class `[\x00-\x1F\x7F]` of the control-character
removal step. -/
def isControlChar (c : Char) : Bool := c.toNat ≤ 0x1F || c.toNat == 0x7F

/-- Removal of the single anchored match of the first `replace`: a
leading right bracket followed by one or two alphanumerics (the
quantifier is greedy, so two are consumed when available). -/
def stripAIM : List Char → List Char
  | ']' :: c1 :: c2 :: rest =>
      if isRegexAlnum c1 then
        if isRegexAlnum c2 then rest else c2 :: rest
      else ']' :: c1 :: c2 :: rest
  | [']', c1] => if isRegexAlnum c1 then [] else [']', c1]
  | l => l

/-- The white-space set of JS `String.prototype.trim` (WhiteSpace and
LineTerminator code points). -/
def isJsWhitespace (c : Char) : Bool :=
  c.toNat == 0x09 || c.toNat == 0x0A || c.toNat == 0x0B || c.toNat == 0x0C ||
  c.toNat == 0x0D || c.toNat == 0x20 || c.toNat == 0xA0 || c.toNat == 0x1680 ||
  (0x2000 ≤ c.toNat && c.toNat ≤ 0x200A) || c.toNat == 0x2028 ||
  c.toNat == 0x2029 || c.toNat == 0x202F || c.toNat == 0x205F ||
  c.toNat == 0x3000 || c.toNat == 0xFEFF

/-- Drop leading white space. -/
def ltrim (l : List Char) : List Char := l.dropWhile isJsWhitespace

/-- Drop trailing white space. -/
def rtrim (l : List Char) : List Char :=
  (l.reverse.dropWhile isJsWhitespace).reverse

/-- JS `trim`: drop leading and trailing white space. -/
def trimChars (l : List Char) : List Char := rtrim (ltrim l)

/-- `BarcodeScanner.normalizeBarcode`: strip one leading AIM identifier,
remove all ASCII control characters, then trim, in that order. -/
def normalizeBarcode (s : String) : String :=
  String.mk (trimChars ((stripAIM s.data).filter (fun c => !isControlChar c)))

/-! ## Scan results -/

structure ScanResult where
  text : String
  rawText : String
  format : String
  timestamp : Nat
  wasNormalized : Bool
deriving DecidableEq, Repr

/-- `BarcodeScanner.createScanResult`, with the decoded text and the
format name of the engine's result passed in, and `Date.now()` passed in
as `now`. -/
def createScanResult (autoNormalize : Bool) (rawText fmt : String)
    (now : Nat) : ScanResult :=
  let normalizedText := if autoNormalize then normalizeBarcode rawText else rawText
  { text := normalizedText
    rawText := rawText
    format := fmt
    timestamp := now
    wasNormalized := rawText != normalizedText }

/-! ## Options

`ScannerOptions` is the caller-supplied record (all fields optional);
`ResolvedScannerOptions` is the internal record the constructor builds
from it.  `formats` is kept as the list of format-name strings, matching
the string-literal union of the source.  `MediaTrackConstraints` is
abstracted to the one key the scanner itself writes (`deviceId`, as an
exact-device constraint) plus an opaque list of further caller-supplied
keys. -/

inductive FacingMode
  | user
  | environment
deriving DecidableEq, Repr

structure MediaTrackConstraints where
  deviceId : Option String := none
  extra : List (String × String) := []
deriving DecidableEq, Repr

structure ScannerOptions where
  fps : Option ℚ := none
  facingMode : Option FacingMode := none
  formats : Option (List String) := none
  autoNormalize : Option Bool := none
  constraints : Option MediaTrackConstraints := none
  targetBoxWidth : Option ℚ := none
  targetBoxHeight : Option ℚ := none
deriving DecidableEq, Repr

structure ResolvedScannerOptions where
  fps : ℚ
  facingMode : FacingMode
  formats : List String
  autoNormalize : Bool
  constraints : MediaTrackConstraints
  targetBoxWidth : Option ℚ
  targetBoxHeight : Option ℚ
deriving DecidableEq, Repr

/-- The option-resolution block of the `BarcodeScanner` constructor:
`??`-defaults for the five total fields; the target-region fields stay
optional. -/
def resolveOptions (o : ScannerOptions) : ResolvedScannerOptions :=
  { fps := o.fps.getD 10
    facingMode := o.facingMode.getD .environment
    formats := o.formats.getD ALL_FORMATS
    autoNormalize := o.autoNormalize.getD true
    constraints := o.constraints.getD {}
    targetBoxWidth := o.targetBoxWidth
    targetBoxHeight := o.targetBoxHeight }

/-! ## Session state

The instance fields of the class.  The video element is abstracted to
its intrinsic dimensions, a stream to a numeric identity, the canvas to
its size, the timer handle to its presence, and the ZXing reader to
whether it holds internal state (its `reset` clears it). -/

structure Video where
  videoWidth : ℚ
  videoHeight : ℚ
deriving DecidableEq, Repr

structure Canvas where
  width : ℚ
  height : ℚ
deriving DecidableEq, Repr

structure ScannerState where
  options : ResolvedScannerOptions
  isScanning : Bool
  videoElement : Option Video
  stream : Option Nat
  canvas : Canvas
  scanInterval : Option Unit
  readerHoldsState : Bool
deriving DecidableEq, Repr

/-- The `BarcodeScanner` constructor: resolve the options and create the
canvas (a fresh canvas element has the default 300 by 150 size). -/
def mkScanner (o : ScannerOptions) : ScannerState :=
  { options := resolveOptions o
    isScanning := false
    videoElement := none
    stream := none
    canvas := { width := 300, height := 150 }
    scanInterval := none
    readerHoldsState := false }

/-! ## Observable side effects

Each call into a browser collaborator (media capture, the video surface,
the canvas, the decode engine, timers) and each callback invocation is
recorded as an `Event`, so that theorems can speak about what the
orchestrator did and in which order. -/

inductive Event
  | getUserMedia (facing : FacingMode) (constraints : MediaTrackConstraints)
  | attachStream (streamId : Nat)
  | playVideo
  | resizeCanvas (w h : ℚ)
  | rasterize (sx sy sw sh : ℚ)
  | encodeFrame
  | decodeStart
  | decodeEnd (success : Bool)
  | scheduleStep (delayMs : ℚ)
  | clearTimer
  | stopTracks (streamId : Nat)
  | detachSurface
  | resetReader
  | callbackScan (r : ScanResult)
  | callbackError (msg : String)
deriving DecidableEq, Repr

def isDecodeStart : Event → Bool
  | .decodeStart => true
  | _ => false

def isDecodeEnd : Event → Bool
  | .decodeEnd _ => true
  | _ => false

def isStopTracksEv : Event → Bool
  | .stopTracks _ => true
  | _ => false

def isCallbackScan : Event → Bool
  | .callbackScan _ => true
  | _ => false

def isScheduleStep : Event → Bool
  | .scheduleStep _ => true
  | _ => false

/-! ## `start`

The environment's responses are passed explicitly: the outcome of
`getUserMedia`, and the outcome of the bounded surface-readiness wait
and the `play()` call. -/

inductive AcquireOutcome
  | success (streamId : Nat)
  | failure (msg : String)
deriving DecidableEq, Repr

inductive ReadyOutcome
  | ready
  | timeout
  | playFailure (msg : String)
deriving DecidableEq, Repr

def ReadyOutcome.isFailure : ReadyOutcome → Bool
  | .ready => false
  | .timeout => true
  | .playFailure _ => true

/-- The error message each failing readiness outcome rejects with (a
timeout rejects with the fixed message of the source). -/
def readyErrorMsg : ReadyOutcome → String
  | .ready => ""
  | .timeout => "Video timeout"
  | .playFailure m => m

/-- `BarcodeScanner.start` up to the point where the scan loop is
started (the loop itself is `scanLoop` below).  The already-running
precondition is checked before anything else; the video element is
stored before the `try` block; the `catch` block reports the error to
`onError` and rethrows without touching the stream. -/
def start (s : ScannerState) (video : Video) (acq : AcquireOutcome)
    (rdy : ReadyOutcome) : Except String Unit × ScannerState × List Event :=
  if s.isScanning then
    (Except.error "Scanner is already running", s, [])
  else
    let s1 := { s with videoElement := some video }
    match acq with
    | .failure msg =>
        (Except.error msg, s1,
          [Event.getUserMedia s.options.facingMode s.options.constraints,
           Event.callbackError msg])
    | .success sid =>
        let s2 := { s1 with stream := some sid }
        match rdy with
        | .timeout =>
            (Except.error "Video timeout", s2,
              [Event.getUserMedia s.options.facingMode s.options.constraints,
               Event.attachStream sid,
               Event.callbackError "Video timeout"])
        | .playFailure m =>
            (Except.error m, s2,
              [Event.getUserMedia s.options.facingMode s.options.constraints,
               Event.attachStream sid, Event.playVideo,
               Event.callbackError m])
        | .ready =>
            let s3 := { s2 with
              canvas := { width := video.videoWidth, height := video.videoHeight }
              isScanning := true }
            (Except.ok (), s3,
              [Event.getUserMedia s.options.facingMode s.options.constraints,
               Event.attachStream sid, Event.playVideo,
               Event.resizeCanvas video.videoWidth video.videoHeight])

/-! ## The scan loop -/

/-- A decode submission either resolves with a recognized code or fails
(the engine's not-found exception, swallowed by the loop's empty
`catch`). -/
inductive DecodeOutcome
  | found (text : String) (fmt : String)
  | notFound
deriving DecidableEq, Repr

structure CropRect where
  x : ℚ
  y : ℚ
  width : ℚ
  height : ℚ
deriving DecidableEq, Repr

/-- The target-region pixel rectangle of `startScanLoop`:
`(regionDim / 100) * frameDim` per axis, centered in the frame. -/
def computeCropRect (targetBoxWidth targetBoxHeight videoWidth videoHeight : ℚ) :
    CropRect :=
  let regionWidth := targetBoxWidth / 100 * videoWidth
  let regionHeight := targetBoxHeight / 100 * videoHeight
  { x := (videoWidth - regionWidth) / 2
    y := (videoHeight - regionHeight) / 2
    width := regionWidth
    height := regionHeight }

/-- JS truthiness of an optional numeric option, as the loop's
`targetBoxWidth && targetBoxHeight` guard sees it: absent and zero are
both falsy. -/
def truthy : Option ℚ → Bool
  | none => false
  | some q => q != 0

/-- The crop-or-full-frame part of one loop step: resize the canvas,
draw the (sub-)rectangle of the video frame, and encode it. -/
def rasterOutput (opts : ResolvedScannerOptions) (video : Video) :
    Canvas × List Event :=
  if truthy opts.targetBoxWidth && truthy opts.targetBoxHeight then
    let r := computeCropRect (opts.targetBoxWidth.getD 0) (opts.targetBoxHeight.getD 0)
      video.videoWidth video.videoHeight
    ({ width := r.width, height := r.height },
     [Event.resizeCanvas r.width r.height,
      Event.rasterize r.x r.y r.width r.height,
      Event.encodeFrame])
  else
    ({ width := video.videoWidth, height := video.videoHeight },
     [Event.resizeCanvas video.videoWidth video.videoHeight,
      Event.rasterize 0 0 video.videoWidth video.videoHeight,
      Event.encodeFrame])

/-- One step of `startScanLoop`'s `scan` closure.  Returns the new
state, the emitted events, and whether a next step was scheduled.  The
step exits up front when scanning was stopped or no surface is
attached; on a successful decode it invokes the callback and returns
without rescheduling; on a miss it reschedules after `1000 / fps`
milliseconds provided scanning is still active. -/
def scanStep (s : ScannerState) (now : Nat) (outcome : DecodeOutcome) :
    ScannerState × List Event × Bool :=
  match s.isScanning, s.videoElement with
  | true, some video =>
      let cr := rasterOutput s.options video
      let s1 := { s with canvas := cr.1 }
      match outcome with
      | .found text fmt =>
          (s1,
           cr.2 ++ [Event.decodeStart, Event.decodeEnd true,
             Event.callbackScan (createScanResult s.options.autoNormalize text fmt now)],
           false)
      | .notFound =>
          if s1.isScanning then
            ({ s1 with scanInterval := some () },
             cr.2 ++ [Event.decodeStart, Event.decodeEnd false,
               Event.scheduleStep (1000 / s.options.fps)],
             true)
          else
            (s1, cr.2 ++ [Event.decodeStart, Event.decodeEnd false], false)
  | _, _ => (s, [], false)

/-- The scan loop driven by a list of decode outcomes, one per fired
step; it continues exactly as long as steps keep being scheduled. -/
def scanLoop (s : ScannerState) (now : Nat) :
    List DecodeOutcome → ScannerState × List Event
  | [] => (s, [])
  | o :: rest =>
      let step := scanStep s now o
      if step.2.2 then
        let next := scanLoop step.1 now rest
        (next.1, step.2.1 ++ next.2)
      else
        (step.1, step.2.1)

/-! ## `stop`, `switchCamera`, `scanImage` and the accessors -/

/-- `BarcodeScanner.stop`: clear the flag, cancel a pending timer, stop
the stream's tracks, detach the surface, reset the reader.  Every
sub-step is guarded on the corresponding handle being present. -/
def stop (s : ScannerState) : ScannerState × List Event :=
  let timerEvents : List Event :=
    match s.scanInterval with
    | some _ => [Event.clearTimer]
    | none => []
  let streamEvents : List Event :=
    match s.stream with
    | some sid => [Event.stopTracks sid]
    | none => []
  let videoEvents : List Event :=
    match s.videoElement with
    | some _ => [Event.detachSurface]
    | none => []
  ({ s with
      isScanning := false
      scanInterval := none
      stream := none
      videoElement := none
      readerHoldsState := false },
   timerEvents ++ streamEvents ++ videoEvents ++ [Event.resetReader])

/-- `BarcodeScanner.switchCamera`: `stop`, merge an exact-device
constraint into the resolved options' `constraints`, `start` again. -/
def switchCamera (s : ScannerState) (deviceId : String) (video : Video)
    (acq : AcquireOutcome) (rdy : ReadyOutcome) :
    Except String Unit × ScannerState × List Event :=
  let s1 := (stop s).1
  let s2 := { s1 with options := { s1.options with
    constraints := { s1.options.constraints with deviceId := some deviceId } } }
  let r := start s2 video acq rdy
  (r.1, r.2.1, (stop s).2 ++ r.2.2)

/-- `BarcodeScanner.scanImage`: read the file, submit it once to the
decode engine, resolve with a scan result or reject.  It reads no
instance state other than the resolved `autoNormalize` flag and the
reader, and writes none. -/
def scanImage (autoNormalize : Bool) (fileRead : Option String)
    (decodeOutcome : Option (String × String)) (now : Nat) :
    Except String ScanResult :=
  match fileRead with
  | none => Except.error "Failed to read file"
  | some _ =>
      match decodeOutcome with
      | none => Except.error "Failed to decode"
      | some (text, fmt) => Except.ok (createScanResult autoNormalize text fmt now)

def getIsScanning (s : ScannerState) : Bool := s.isScanning

def getOptions (s : ScannerState) : ResolvedScannerOptions := s.options

/-! ## Sequences of public operations

For invariants over arbitrary call sequences, a public operation is one
constructor per public method, carrying the environment responses that
call observes.  `scanImage` and `listCameras` read browser state and the
shared reader but no mutable instance field, so they leave the scanner
state unchanged. -/

inductive PublicOp
  | startOp (video : Video) (acq : AcquireOutcome) (rdy : ReadyOutcome)
  | stopOp
  | switchCameraOp (deviceId : String) (video : Video)
      (acq : AcquireOutcome) (rdy : ReadyOutcome)
  | scanImageOp
  | listCamerasOp
deriving DecidableEq, Repr

def isNotSwitchOp : PublicOp → Bool
  | .switchCameraOp _ _ _ _ => false
  | _ => true

def runOp (s : ScannerState) : PublicOp → ScannerState
  | .startOp v acq rdy => (start s v acq rdy).2.1
  | .stopOp => (stop s).1
  | .switchCameraOp d v acq rdy => (switchCamera s d v acq rdy).2.1
  | .scanImageOp => s
  | .listCamerasOp => s

def runOps (s : ScannerState) (ops : List PublicOp) : ScannerState :=
  ops.foldl runOp s

/-! ## Decode-submission nesting

`balRun` runs over an event trace tracking whether a decode submission
is outstanding; it returns `none` as soon as a submission is opened
while one is outstanding (or closed while none is).  A trace accepted
from `pending = false` therefore never has two outstanding submissions,
at any instant. -/

def balRun : Bool → List Event → Option Bool
  | p, [] => some p
  | p, e :: rest =>
      if isDecodeStart e then
        if p then none else balRun true rest
      else if isDecodeEnd e then
        if p then balRun false rest else none
      else
        balRun p rest

/-- Agreement of two resolved-option records on every field except
`constraints` (the one field `switchCamera` writes). -/
def sameCoreOptions (a b : ResolvedScannerOptions) : Prop :=
  a.fps = b.fps ∧ a.facingMode = b.facingMode ∧ a.formats = b.formats ∧
  a.autoNormalize = b.autoNormalize ∧ a.targetBoxWidth = b.targetBoxWidth ∧
  a.targetBoxHeight = b.targetBoxHeight

/-- A default-constructed scanner mid-session: scanning, with a surface
attached and a live stream (used to instantiate theorems about the
scanning state at a concrete input). -/
def demoScanningState : ScannerState :=
  { mkScanner {} with
      isScanning := true
      videoElement := some { videoWidth := 1280, videoHeight := 720 }
      stream := some 5 }

/-! # Theorems

## Trim and normalization lemmas -/

theorem dropWhile_idem (p : Char → Bool) (l : List Char) :
    (l.dropWhile p).dropWhile p = l.dropWhile p := by
  induction l with
  | nil => rfl
  | cons a t ih =>
      by_cases h : p a
      · simp [List.dropWhile_cons, h, ih]
      · simp [List.dropWhile_cons, h]

theorem dropWhile_eq_self_of_head (p : Char → Bool) (l : List Char)
    (h : ∀ a, l.head? = some a → p a = false) : l.dropWhile p = l := by
  cases l with
  | nil => rfl
  | cons a t => simp [List.dropWhile_cons, h a rfl]

theorem head_false_of_dropWhile_eq_self (p : Char → Bool) (l : List Char)
    (h : l.dropWhile p = l) : ∀ a, l.head? = some a → p a = false := by
  cases l with
  | nil => intro a ha; cases ha
  | cons b t =>
      intro a ha
      have hab : b = a := by simpa using ha
      subst hab
      by_cases hb : p b
      · exfalso
        rw [List.dropWhile_cons, if_pos hb] at h
        have hlen : (t.dropWhile p).length ≤ t.length :=
          List.Sublist.length_le (List.dropWhile_sublist p)
        rw [h] at hlen
        simp at hlen
      · simpa using hb

theorem rtrim_decomp (l : List Char) :
    l = rtrim l ++ (l.reverse.takeWhile isJsWhitespace).reverse := by
  conv_lhs =>
    rw [← List.reverse_reverse l,
      ← List.takeWhile_append_dropWhile isJsWhitespace l.reverse,
      List.reverse_append]
  rfl

theorem mem_of_mem_rtrim {a : Char} {l : List Char} (h : a ∈ rtrim l) : a ∈ l := by
  rw [rtrim_decomp l]
  exact List.mem_append_left _ h

theorem mem_of_mem_ltrim {a : Char} {l : List Char} (h : a ∈ ltrim l) : a ∈ l := by
  rw [← List.takeWhile_append_dropWhile isJsWhitespace l]
  exact List.mem_append_right _ h

theorem mem_of_mem_trimChars {a : Char} {l : List Char}
    (h : a ∈ trimChars l) : a ∈ l :=
  mem_of_mem_ltrim (mem_of_mem_rtrim h)

theorem ltrim_idem (l : List Char) : ltrim (ltrim l) = ltrim l :=
  dropWhile_idem isJsWhitespace l

theorem rtrim_idem (l : List Char) : rtrim (rtrim l) = rtrim l := by
  unfold rtrim
  rw [List.reverse_reverse, dropWhile_idem]

theorem ltrim_rtrim_of_ltrimmed (m : List Char) (h : ltrim m = m) :
    ltrim (rtrim m) = rtrim m := by
  apply dropWhile_eq_self_of_head
  intro a ha
  cases hr : rtrim m with
  | nil => rw [hr] at ha; cases ha
  | cons b t =>
      rw [hr] at ha
      have hab : b = a := by simpa using ha
      have hm := rtrim_decomp m
      rw [hr] at hm
      have hd : m.head? = some a := by rw [hm]; simp [hab]
      exact head_false_of_dropWhile_eq_self isJsWhitespace m h a hd

theorem trimChars_idem (l : List Char) : trimChars (trimChars l) = trimChars l := by
  unfold trimChars
  have h1 : ltrim (ltrim l) = ltrim l := ltrim_idem l
  rw [ltrim_rtrim_of_ltrimmed (ltrim l) h1, rtrim_idem]

/-- C4 counterexample: normalization is not idempotent.  Stripping the
AIM identifier of the raw text can expose a second one, which a second
normalization pass then also strips. -/
theorem normalize_not_idempotent :
    (normalizeBarcode (normalizeBarcode "]A]B1X") == normalizeBarcode "]A]B1X") = false ∧
    normalizeBarcode "]A]B1X" = "]B1X" ∧
    normalizeBarcode (normalizeBarcode "]A]B1X") = "X" :=
  ⟨by decide, by decide, by decide⟩

/-- C4 (amended): normalization is idempotent on every string whose
normal form does not begin with a further AIM identifier (stripping it
again is the only way a second pass can differ: the control-character
removal and the trim are idempotent), and a scan whose raw text is a
fixed point of normalization reports `wasNormalized = false`. -/
theorem normalize_idempotent_conditional :
    (∀ s : String,
        stripAIM (normalizeBarcode s).data = (normalizeBarcode s).data →
        normalizeBarcode (normalizeBarcode s) = normalizeBarcode s) ∧
    (∀ (s fmt : String) (now : Nat), normalizeBarcode s = s →
        (createScanResult true s fmt now).wasNormalized = false) := by
  constructor
  · intro s hstrip
    have hD : (normalizeBarcode s).data
        = trimChars ((stripAIM s.data).filter (fun c => !isControlChar c)) := rfl
    show String.mk (trimChars ((stripAIM (normalizeBarcode s).data).filter
        (fun c => !isControlChar c))) = normalizeBarcode s
    rw [hstrip]
    have hfilter : ((normalizeBarcode s).data).filter (fun c => !isControlChar c)
        = (normalizeBarcode s).data := by
      apply List.filter_eq_self.mpr
      intro a ha
      rw [hD] at ha
      exact (List.mem_filter.mp (mem_of_mem_trimChars ha)).2
    rw [hfilter]
    have htrim : trimChars ((normalizeBarcode s).data) = (normalizeBarcode s).data := by
      rw [hD]; exact trimChars_idem _
    rw [htrim]
  · intro s fmt now h
    simp [createScanResult, h]

/-- Witness for the amended C4 at the concrete fixed point `ABC123`. -/
theorem normalize_idempotent_conditional_witness :
    normalizeBarcode (normalizeBarcode "ABC123") = normalizeBarcode "ABC123" ∧
    (createScanResult true "ABC123" "QR_CODE" 0).wasNormalized = false :=
  ⟨normalize_idempotent_conditional.1 "ABC123" (by decide),
   normalize_idempotent_conditional.2 "ABC123" "QR_CODE" 0 (by decide)⟩

/-- C5: with normalization enabled, one leading AIM identifier is
stripped, then control characters are removed, then the result is
trimmed, so the raw text of the claim normalizes to `ABC123`, the raw
text is kept, and `wasNormalized` is reported. -/
theorem normalize_order_example :
    createScanResult true "]C1\x00ABC123 " "CODE_128" 1700000000000 =
      { text := "ABC123"
        rawText := "]C1\x00ABC123 "
        format := "CODE_128"
        timestamp := 1700000000000
        wasNormalized := true } := by
  decide

/-! ## Decode-submission nesting lemmas -/

theorem not_isDecodeEnd_of_isDecodeStart (e : Event) (h : isDecodeStart e = true) :
    isDecodeEnd e = false := by
  cases e <;> simp [isDecodeStart, isDecodeEnd] at h ⊢

theorem balRun_append (a b : List Event) :
    ∀ p, balRun p (a ++ b) = (balRun p a).bind (fun q => balRun q b) := by
  induction a with
  | nil => intro p; rfl
  | cons e t ih =>
      intro p
      by_cases hs : isDecodeStart e
      · cases p <;> simp [balRun, hs, ih]
      · by_cases he : isDecodeEnd e
        · cases p <;> simp [balRun, hs, he, ih]
        · simp [balRun, hs, he, ih]

theorem balRun_count (t : List Event) :
    ∀ p q, balRun p t = some q →
      p.toNat + t.countP isDecodeStart = t.countP isDecodeEnd + q.toNat := by
  induction t with
  | nil =>
      intro p q h
      simp [balRun] at h
      subst h
      simp
  | cons e rest ih =>
      intro p q h
      by_cases hs : isDecodeStart e
      · have hf := not_isDecodeEnd_of_isDecodeStart e hs
        cases p with
        | true => simp [balRun, hs] at h
        | false =>
            simp only [balRun, hs, if_true, if_false] at h
            have hrest := ih true q h
            simp [List.countP_cons, hs, hf] at hrest ⊢
            omega
      · by_cases he : isDecodeEnd e
        · cases p with
          | false => simp [balRun, hs, he] at h
          | true =>
              simp only [balRun, hs, he, if_true, if_false] at h
              have hrest := ih false q h
              simp [List.countP_cons, hs, he] at hrest ⊢
              omega
        · simp only [balRun, hs, he, if_true, if_false] at h
          have hrest := ih p q h
          simp [List.countP_cons, hs, he] at hrest ⊢
          omega

theorem balRun_rasterOutput (opts : ResolvedScannerOptions) (video : Video)
    (p : Bool) (tail : List Event) :
    balRun p ((rasterOutput opts video).2 ++ tail) = balRun p tail := by
  unfold rasterOutput
  split <;> rfl

theorem scanStep_balRun (s : ScannerState) (now : Nat) (o : DecodeOutcome) :
    balRun false (scanStep s now o).2.1 = some false := by
  obtain ⟨opts, scanning, vid, strm, canv, si, rh⟩ := s
  cases scanning with
  | false => rfl
  | true =>
      cases vid with
      | none => rfl
      | some video =>
          cases o with
          | found text fmt =>
              show balRun false ((rasterOutput opts video).2 ++ _) = some false
              rw [balRun_rasterOutput]
              rfl
          | notFound =>
              show balRun false ((rasterOutput opts video).2 ++ _) = some false
              rw [balRun_rasterOutput]
              rfl

theorem scanLoop_balRun (outcomes : List DecodeOutcome) :
    ∀ (s : ScannerState) (now : Nat),
      balRun false (scanLoop s now outcomes).2 = some false := by
  induction outcomes with
  | nil => intro s now; rfl
  | cons o rest ih =>
      intro s now
      have hbal := scanStep_balRun s now o
      cases hstep : scanStep s now o with
      | mk s1 evr =>
          obtain ⟨evs, resched⟩ := evr
          rw [hstep] at hbal
          cases resched with
          | true =>
              have hloop : (scanLoop s now (o :: rest)).2
                  = evs ++ (scanLoop s1 now rest).2 := by
                simp [scanLoop, hstep]
              rw [hloop, balRun_append, hbal]
              simpa using ih s1 now
          | false =>
              have hloop : (scanLoop s now (o :: rest)).2 = evs := by
                simp [scanLoop, hstep]
              rw [hloop]
              exact hbal

/-- C1: decode submissions of the scan loop never overlap.  Over the
event trace of any run of the loop, every prefix contains at most one
more `decodeStart` than `decodeEnd` events (and never fewer): at any
instant at most one decode submission is outstanding, because each
step reschedules only after its own submission has resolved. -/
theorem scanLoop_single_flight (s : ScannerState) (now : Nat)
    (outcomes : List DecodeOutcome) (pre suf : List Event)
    (h : (scanLoop s now outcomes).2 = pre ++ suf) :
    pre.countP isDecodeEnd ≤ pre.countP isDecodeStart ∧
    pre.countP isDecodeStart ≤ pre.countP isDecodeEnd + 1 := by
  have hb := scanLoop_balRun outcomes s now
  rw [h, balRun_append] at hb
  cases hq : balRun false pre with
  | none => rw [hq] at hb; simp at hb
  | some q =>
      have hc := balRun_count pre false q hq
      have hle : q.toNat ≤ 1 := Bool.toNat_le q
      rw [Bool.toNat_false] at hc
      omega

/-- Witness for C1: the full trace of a two-miss run from a scanning
state, taken as its own prefix. -/
theorem scanLoop_single_flight_witness :
    (scanLoop demoScanningState 0 [DecodeOutcome.notFound, DecodeOutcome.notFound]).2.countP
        isDecodeEnd ≤
      (scanLoop demoScanningState 0 [DecodeOutcome.notFound, DecodeOutcome.notFound]).2.countP
        isDecodeStart ∧
    (scanLoop demoScanningState 0 [DecodeOutcome.notFound, DecodeOutcome.notFound]).2.countP
        isDecodeStart ≤
      (scanLoop demoScanningState 0 [DecodeOutcome.notFound, DecodeOutcome.notFound]).2.countP
        isDecodeEnd + 1 :=
  scanLoop_single_flight demoScanningState 0 [DecodeOutcome.notFound, DecodeOutcome.notFound]
    ((scanLoop demoScanningState 0 [DecodeOutcome.notFound, DecodeOutcome.notFound]).2) []
    (by simp)

/-! ## Option-record mutation lemmas -/

theorem start_options (s : ScannerState) (v : Video) (acq : AcquireOutcome)
    (rdy : ReadyOutcome) : (start s v acq rdy).2.1.options = s.options := by
  unfold start
  by_cases h : s.isScanning
  · simp [h]
  · cases acq with
    | failure m => simp [h]
    | success sid => cases rdy <;> simp [h]

theorem stop_state_eq (s : ScannerState) :
    (stop s).1 = { s with
      isScanning := false
      scanInterval := none
      stream := none
      videoElement := none
      readerHoldsState := false } := rfl

theorem switchCamera_options (s : ScannerState) (d : String) (v : Video)
    (acq : AcquireOutcome) (rdy : ReadyOutcome) :
    (switchCamera s d v acq rdy).2.1.options =
      { s.options with
        constraints := { s.options.constraints with deviceId := some d } } := by
  simp [switchCamera, start_options]
  exact ⟨rfl, rfl, rfl, rfl, rfl, rfl, rfl⟩

theorem sameCoreOptions_refl (a : ResolvedScannerOptions) : sameCoreOptions a a :=
  ⟨rfl, rfl, rfl, rfl, rfl, rfl⟩

theorem sameCoreOptions_trans {a b c : ResolvedScannerOptions}
    (h1 : sameCoreOptions a b) (h2 : sameCoreOptions b c) : sameCoreOptions a c := by
  obtain ⟨x1, x2, x3, x4, x5, x6⟩ := h1
  obtain ⟨y1, y2, y3, y4, y5, y6⟩ := h2
  exact ⟨x1.trans y1, x2.trans y2, x3.trans y3, x4.trans y4, x5.trans y5, x6.trans y6⟩

theorem runOp_sameCoreOptions (s : ScannerState) (op : PublicOp) :
    sameCoreOptions (runOp s op).options s.options := by
  cases op with
  | startOp v acq rdy =>
      show sameCoreOptions (start s v acq rdy).2.1.options s.options
      rw [start_options]
      exact sameCoreOptions_refl _
  | stopOp => exact sameCoreOptions_refl _
  | switchCameraOp d v acq rdy =>
      show sameCoreOptions (switchCamera s d v acq rdy).2.1.options s.options
      rw [switchCamera_options]
      exact ⟨rfl, rfl, rfl, rfl, rfl, rfl⟩
  | scanImageOp => exact sameCoreOptions_refl _
  | listCamerasOp => exact sameCoreOptions_refl _

theorem runOp_notSwitch_options (s : ScannerState) (op : PublicOp)
    (h : isNotSwitchOp op = true) : (runOp s op).options = s.options := by
  cases op with
  | startOp v acq rdy => exact start_options s v acq rdy
  | stopOp => rfl
  | switchCameraOp d v acq rdy => simp [isNotSwitchOp] at h
  | scanImageOp => rfl
  | listCamerasOp => rfl

/-- C2 counterexample: a sequence consisting of one `switchCamera` call
changes the resolved options: the exact-device constraint is merged into
their `constraints` field. -/
theorem switchCamera_mutates_options :
    ((runOps (mkScanner {}) [PublicOp.switchCameraOp "cam2" { videoWidth := 640, videoHeight := 480 }
          (AcquireOutcome.success 1) ReadyOutcome.ready]).options.constraints.deviceId
        == (mkScanner {}).options.constraints.deviceId) = false ∧
    (runOps (mkScanner {}) [PublicOp.switchCameraOp "cam2" { videoWidth := 640, videoHeight := 480 }
        (AcquireOutcome.success 1) ReadyOutcome.ready]).options.constraints.deviceId
      = some "cam2" ∧
    (mkScanner {}).options.constraints.deviceId = none :=
  ⟨by decide, by decide, rfl⟩

/-- C2 (amended): over every sequence of public operations the resolved
options keep their construction-time `fps`, `facingMode`, `formats`,
`autoNormalize` and target-region fields; the `constraints` field is the
single exception, and it changes only when the sequence contains a
`switchCamera` call (which merges a device-exact constraint into it). -/
theorem options_constraints_only_mutation (s : ScannerState) (ops : List PublicOp) :
    sameCoreOptions (runOps s ops).options s.options ∧
    (ops.all isNotSwitchOp = true → (runOps s ops).options = s.options) := by
  induction ops generalizing s with
  | nil => exact ⟨sameCoreOptions_refl _, fun _ => rfl⟩
  | cons op rest ih =>
      have hfold : runOps s (op :: rest) = runOps (runOp s op) rest := rfl
      constructor
      · rw [hfold]
        exact sameCoreOptions_trans (ih (runOp s op)).1 (runOp_sameCoreOptions s op)
      · intro hall
        rw [List.all_cons, Bool.and_eq_true] at hall
        rw [hfold, (ih (runOp s op)).2 hall.2, runOp_notSwitch_options s op hall.1]

/-- Witness for the amended C2 at a concrete switch-free sequence. -/
theorem options_constraints_only_mutation_witness :
    sameCoreOptions
      (runOps (mkScanner {}) [PublicOp.stopOp,
        PublicOp.startOp { videoWidth := 640, videoHeight := 480 }
          (AcquireOutcome.success 3) ReadyOutcome.ready]).options
      (mkScanner {}).options ∧
    (runOps (mkScanner {}) [PublicOp.stopOp,
        PublicOp.startOp { videoWidth := 640, videoHeight := 480 }
          (AcquireOutcome.success 3) ReadyOutcome.ready]).options
      = (mkScanner {}).options :=
  ⟨(options_constraints_only_mutation (mkScanner {}) [PublicOp.stopOp,
      PublicOp.startOp { videoWidth := 640, videoHeight := 480 }
        (AcquireOutcome.success 3) ReadyOutcome.ready]).1,
   (options_constraints_only_mutation (mkScanner {}) [PublicOp.stopOp,
      PublicOp.startOp { videoWidth := 640, videoHeight := 480 }
        (AcquireOutcome.success 3) ReadyOutcome.ready]).2 (by decide)⟩

/-! ## Start-failure and stop lemmas -/

/-- C3 counterexample: when the surface-readiness wait times out after
the stream was acquired, `start` propagates the error with the stream
handle still set and without stopping a single track: the `catch` block
of the source only reports and rethrows. -/
theorem start_failure_leaves_stream :
    (start (mkScanner {}) { videoWidth := 640, videoHeight := 480 }
        (AcquireOutcome.success 7) ReadyOutcome.timeout).1
      = Except.error "Video timeout" ∧
    (start (mkScanner {}) { videoWidth := 640, videoHeight := 480 }
        (AcquireOutcome.success 7) ReadyOutcome.timeout).2.1.stream = some 7 ∧
    (start (mkScanner {}) { videoWidth := 640, videoHeight := 480 }
        (AcquireOutcome.success 7) ReadyOutcome.timeout).2.2.countP isStopTracksEv = 0 :=
  ⟨rfl, rfl, rfl⟩

/-- C3 (amended): if `start` fails after the stream was acquired
(readiness timeout or playback failure), the error is reported to the
error callback and propagated, but the stream is not released: the
handle stays set and no track is stopped; the next `stop` call is what
stops the tracks and clears the handle. -/
theorem start_failure_stream_retained (s : ScannerState) (v : Video) (sid : Nat)
    (rdy : ReadyOutcome) (hscan : s.isScanning = false)
    (hfail : rdy.isFailure = true) :
    (start s v (AcquireOutcome.success sid) rdy).1
      = Except.error (readyErrorMsg rdy) ∧
    (start s v (AcquireOutcome.success sid) rdy).2.1.stream = some sid ∧
    (start s v (AcquireOutcome.success sid) rdy).2.2.countP isStopTracksEv = 0 ∧
    Event.callbackError (readyErrorMsg rdy)
      ∈ (start s v (AcquireOutcome.success sid) rdy).2.2 ∧
    (stop (start s v (AcquireOutcome.success sid) rdy).2.1).1.stream = none ∧
    (stop (start s v (AcquireOutcome.success sid) rdy).2.1).2.countP isStopTracksEv = 1 := by
  cases rdy with
  | ready => simp [ReadyOutcome.isFailure] at hfail
  | timeout =>
      refine ⟨?_, ?_, ?_, ?_, ?_, ?_⟩ <;>
        · simp only [start, hscan, readyErrorMsg]
          cases hsi : s.scanInterval <;>
            simp [stop, hsi, List.countP_cons, isStopTracksEv]
  | playFailure m =>
      refine ⟨?_, ?_, ?_, ?_, ?_, ?_⟩ <;>
        · simp only [start, hscan, readyErrorMsg]
          cases hsi : s.scanInterval <;>
            simp [stop, hsi, List.countP_cons, isStopTracksEv]

/-- Witness for the amended C3 at a concrete timed-out `start`. -/
theorem start_failure_stream_retained_witness :
    (start (mkScanner {}) { videoWidth := 800, videoHeight := 600 }
        (AcquireOutcome.success 9) ReadyOutcome.timeout).1
      = Except.error (readyErrorMsg ReadyOutcome.timeout) ∧
    (start (mkScanner {}) { videoWidth := 800, videoHeight := 600 }
        (AcquireOutcome.success 9) ReadyOutcome.timeout).2.1.stream = some 9 ∧
    (start (mkScanner {}) { videoWidth := 800, videoHeight := 600 }
        (AcquireOutcome.success 9) ReadyOutcome.timeout).2.2.countP isStopTracksEv = 0 ∧
    Event.callbackError (readyErrorMsg ReadyOutcome.timeout)
      ∈ (start (mkScanner {}) { videoWidth := 800, videoHeight := 600 }
          (AcquireOutcome.success 9) ReadyOutcome.timeout).2.2 ∧
    (stop (start (mkScanner {}) { videoWidth := 800, videoHeight := 600 }
        (AcquireOutcome.success 9) ReadyOutcome.timeout).2.1).1.stream = none ∧
    (stop (start (mkScanner {}) { videoWidth := 800, videoHeight := 600 }
        (AcquireOutcome.success 9) ReadyOutcome.timeout).2.1).2.countP isStopTracksEv = 1 :=
  start_failure_stream_retained (mkScanner {}) { videoWidth := 800, videoHeight := 600 }
    9 ReadyOutcome.timeout rfl rfl

/-- C6: the crop rectangle of a configured target region scales each
axis by `regionDim / 100` and is centered in the frame; on a 1000 by
800 frame, a 50 by 50 percent region is the 500 by 400 rectangle at
(250, 200). -/
theorem cropRect_formula_and_example :
    (∀ tw th vw vh : ℚ,
        (computeCropRect tw th vw vh).width = tw / 100 * vw ∧
        (computeCropRect tw th vw vh).height = th / 100 * vh ∧
        2 * (computeCropRect tw th vw vh).x + (computeCropRect tw th vw vh).width = vw ∧
        2 * (computeCropRect tw th vw vh).y + (computeCropRect tw th vw vh).height = vh) ∧
    computeCropRect 50 50 1000 800 =
      { x := 250, y := 200, width := 500, height := 400 } := by
  constructor
  · intro tw th vw vh
    refine ⟨rfl, rfl, ?_, ?_⟩ <;>
      · simp only [computeCropRect]
        ring
  · simp only [computeCropRect, CropRect.mk.injEq]
    norm_num

/-- C7: calling `start` while scanning rejects with the already-running
error before anything else happens: the state is returned untouched and
no collaborator is called (the event trace is empty). -/
theorem start_already_running (s : ScannerState) (v : Video)
    (acq : AcquireOutcome) (rdy : ReadyOutcome) (h : s.isScanning = true) :
    start s v acq rdy = (Except.error "Scanner is already running", s, []) := by
  simp [start, h]

/-- Witness for C7 on a concrete scanning state. -/
theorem start_already_running_witness :
    start demoScanningState { videoWidth := 640, videoHeight := 480 }
        (AcquireOutcome.success 1) ReadyOutcome.ready
      = (Except.error "Scanner is already running", demoScanningState, []) :=
  start_already_running demoScanningState { videoWidth := 640, videoHeight := 480 }
    (AcquireOutcome.success 1) ReadyOutcome.ready rfl

/-- C8: `stop` always clears the flag, the timer, the stream, the
surface and the reader state; it is idempotent (the second of two
consecutive calls leaves the state unchanged and does nothing but reset
the already-reset reader), and from a freshly constructed scanner it is
a no-op; being a total function of the state, it throws nothing. -/
theorem stop_idempotent_no_throw :
    (∀ s : ScannerState,
        (stop s).1.isScanning = false ∧
        (stop s).1.scanInterval = none ∧
        (stop s).1.stream = none ∧
        (stop s).1.videoElement = none ∧
        (stop s).1.readerHoldsState = false) ∧
    (∀ s : ScannerState, stop (stop s).1 = ((stop s).1, [Event.resetReader])) ∧
    (∀ o : ScannerOptions, stop (mkScanner o) = (mkScanner o, [Event.resetReader])) :=
  ⟨fun _ => ⟨rfl, rfl, rfl, rfl, rfl⟩, fun _ => rfl, fun _ => rfl⟩

/-- C9: the default format list versus the public `BarcodeFormat` type.
The constructor's default (`ALL_FORMATS`) contains the thirteen names of
the source list, among them `CODE_93`; the public `BarcodeFormat` union
of `types.ts` has twelve members and none of them is `CODE_93`, so the
default set is strictly larger than the type's membership. -/
theorem default_formats_code93_divergence :
    (resolveOptions {}).formats = ALL_FORMATS ∧
    "CODE_93" ∈ ALL_FORMATS ∧
    ∀ f : BarcodeFormat, f ∈ allBarcodeFormats ∧ (formatName f == "CODE_93") = false := by
  refine ⟨rfl, by decide, fun f => ?_⟩
  cases f <;> exact ⟨by decide, rfl⟩

/-! ## Post-success state of the loop -/

theorem rasterOutput_countP_schedule (opts : ResolvedScannerOptions) (video : Video) :
    ((rasterOutput opts video).2).countP isScheduleStep = 0 := by
  unfold rasterOutput
  split <;> rfl

theorem rasterOutput_countP_callback (opts : ResolvedScannerOptions) (video : Video) :
    ((rasterOutput opts video).2).countP isCallbackScan = 0 := by
  unfold rasterOutput
  split <;> rfl

/-- C10: a successful decode step invokes the scan callback exactly
once and schedules no further step, yet leaves `isScanning` (and so
`getIsScanning`) true; only `stop` resets the flag. -/
theorem success_keeps_isScanning (s : ScannerState) (v : Video) (now : Nat)
    (text fmt : String) (hscan : s.isScanning = true)
    (hvid : s.videoElement = some v) :
    (scanStep s now (DecodeOutcome.found text fmt)).2.2 = false ∧
    (scanStep s now (DecodeOutcome.found text fmt)).2.1.countP isScheduleStep = 0 ∧
    (scanStep s now (DecodeOutcome.found text fmt)).2.1.countP isCallbackScan = 1 ∧
    getIsScanning (scanStep s now (DecodeOutcome.found text fmt)).1 = true ∧
    getIsScanning (stop (scanStep s now (DecodeOutcome.found text fmt)).1).1 = false := by
  obtain ⟨opts, scanning, vid, strm, canv, si, rh⟩ := s
  have hs2 : scanning = true := hscan
  have hv2 : vid = some v := hvid
  subst hs2
  subst hv2
  refine ⟨rfl, ?_, ?_, rfl, rfl⟩
  · show ((rasterOutput opts v).2 ++ _).countP isScheduleStep = 0
    rw [List.countP_append, rasterOutput_countP_schedule]
    rfl
  · show ((rasterOutput opts v).2 ++ _).countP isCallbackScan = 1
    rw [List.countP_append, rasterOutput_countP_callback]
    rfl

/-- Witness for C10 on a concrete scanning state. -/
theorem success_keeps_isScanning_witness :
    (scanStep demoScanningState 0 (DecodeOutcome.found "HELLO" "QR_CODE")).2.2 = false ∧
    (scanStep demoScanningState 0 (DecodeOutcome.found "HELLO" "QR_CODE")).2.1.countP
        isScheduleStep = 0 ∧
    (scanStep demoScanningState 0 (DecodeOutcome.found "HELLO" "QR_CODE")).2.1.countP
        isCallbackScan = 1 ∧
    getIsScanning (scanStep demoScanningState 0 (DecodeOutcome.found "HELLO" "QR_CODE")).1
      = true ∧
    getIsScanning
        (stop (scanStep demoScanningState 0 (DecodeOutcome.found "HELLO" "QR_CODE")).1).1
      = false :=
  success_keeps_isScanning demoScanningState { videoWidth := 1280, videoHeight := 720 }
    0 "HELLO" "QR_CODE" rfl rfl

end Codito

